import Mathlib

/-!
Verification of the reconciliation/retry engine of the Astra Terraform
provider (keyspace and CDC resources).

Go strings are modelled as `List Char`.  The identifiers handled by the
provider (UUIDs, keyspace/table/tenant names, HTTP status strings) are
ASCII, so Go's `strings.ToLower` is modelled by its ASCII branch and
`strings.Split` by a direct recursive split on a non-empty separator.

Remote calls are modelled by oracles: functions from the index of the
call to the (already classified) response the remote side produced for
that call.  The retry loops of the provider are then ordinary recursive
functions over those oracles; the wall-clock deadline of
`retry.RetryContext` (and of the unbounded CDC loops) is modelled by a
fuel parameter, where running out of fuel is reported as a separate
outcome, distinct from both success and terminal failure.
-/

namespace AstraProvider

/-! ## Go string primitives -/

/-- ASCII branch of Go `strings.ToLower`, applied character-wise
(`unicode.ToLower` restricted to ASCII, which covers every identifier
the provider manipulates). -/
def goToLowerChar (c : Char) : Char :=
  if 65 ≤ c.toNat ∧ c.toNat ≤ 90 then Char.ofNat (c.toNat + 32) else c

/-- Go `strings.ToLower` on an ASCII string. -/
def goToLower (s : List Char) : List Char := s.map goToLowerChar

/-- Go `strings.HasPrefix` / the prefix test used on `http.Response.Status`. -/
def listStartsWith (pre s : List Char) : Bool := List.isPrefixOf pre s

/-- Worker for Go `strings.Split` with the non-empty separator
`c0 :: sr`: scan left to right, and when the separator starts at the
current position, end the current segment and skip the `sr.length`
remaining separator characters (the `skip` argument counts characters
of an already-matched separator still to be consumed). -/
def splitSepAux (c0 : Char) (sr : List Char) : List Char → Nat → List (List Char)
  | [], _ => [[]]
  | _ :: rest, skip + 1 => splitSepAux c0 sr rest skip
  | c :: rest, 0 =>
    if c = c0 ∧ sr.isPrefixOf rest then
      [] :: splitSepAux c0 sr rest sr.length
    else
      match splitSepAux c0 sr rest 0 with
      | [] => [[c]]
      | seg :: segs => (c :: seg) :: segs

/-- Go `strings.Split s sep` for a non-empty separator `c0 :: sr`:
split `s` around every non-overlapping occurrence of the separator,
scanning left to right. -/
def splitSep (c0 : Char) (sr : List Char) (s : List Char) : List (List Char) :=
  splitSepAux c0 sr s 0

/-! ## IdentityCodec (resource id encode/decode) -/

/-- The separator of the keyspace resource id, minus its leading slash:
the id is built as `databaseID ++ "/keyspace/" ++ keyspaceName`. -/
def keyspaceSepTail : List Char := ['k', 'e', 'y', 's', 'p', 'a', 'c', 'e', '/']

/-- The id written by `setKeyspaceResourceData`:
`fmt.Sprintf("%s/keyspace/%s", databaseID, keyspaceName)`. -/
def ksEncodeID (databaseID keyspaceName : List Char) : List Char :=
  databaseID ++ ('/' :: keyspaceSepTail) ++ keyspaceName

/-- Function `parseKeyspaceID`: split the id on `"/keyspace/"` and require exactly
two parts, otherwise fail with a structural error. -/
def parseKeyspaceID (id : List Char) :
    Except String (List Char × List Char) :=
  match splitSep '/' keyspaceSepTail id with
  | [a, b] => Except.ok (a, b)
  | _ => Except.error "invalid keyspace id format: expected database_id/keyspace"

/-- The id written by `resourceCDCCreate`:
`fmt.Sprintf("%s/%s/%s/%s", databaseId, keyspace, table, tenantName)`. -/
def cdcEncodeID (databaseId keyspace table tenantName : List Char) : List Char :=
  databaseId ++ '/' :: (keyspace ++ '/' :: (table ++ '/' :: tenantName))

/-- Function `parseCDCID`: lower-case the id, split on `"/"` and require exactly
four parts, otherwise fail with a structural error. -/
def parseCDCID (id : List Char) :
    Except String (List Char × List Char × List Char × List Char) :=
  match splitSep '/' [] (goToLower id) with
  | [a, b, c, d] => Except.ok (a, b, c, d)
  | _ => Except.error "invalid role id format: expected databaseId/keyspace/table/tenantName"

/-! ## Parent database status (astra.Database.Status) -/

/-- The database lifecycle statuses named by the code, plus a catch-all
for every other enum value of the remote API. -/
inductive DbStatus where
  | ACTIVE
  | ERROR
  | TERMINATED
  | TERMINATING
  | INITIALIZING
  | PENDING
  | MAINTENANCE
  | other (tag : String)
deriving DecidableEq

/-- The statuses of the first switch case of lines 80/172: a database in
one of these will never become active. -/
def terminalStatus (st : DbStatus) : Bool :=
  st = DbStatus.ERROR || st = DbStatus.TERMINATED || st = DbStatus.TERMINATING

/-- Outcome of one `GetDatabaseWithResponse` call: either the transport
errored (`err != nil`), or an HTTP response with its status code and,
when the body deserialized (`res.JSON200 != nil`), the database status
the body carried. -/
inductive GetDbResponse where
  | transportError
  | response (statusCode : Nat) (json200 : Option DbStatus)
deriving DecidableEq

/-- The classification a polling / mutation step produces. -/
inductive RetryOutcome (α : Type) where
  | retry
  | fail
  | proceed (value : α)
deriving DecidableEq

/-- Lines 62-82 and 104-105 of `resourceKeyspaceCreate` (repeated
verbatim at lines 154-174 and 193-194 of `resourceKeyspaceDelete`):
classify one `GetDatabase` response.  Transport error: retryable;
code >= 500: retryable; code > 200 or missing body: non-retryable;
terminal body status: non-retryable; ACTIVE: proceed; any other body
status: retryable. -/
def classifyDbResponse : GetDbResponse → RetryOutcome DbStatus
  | .transportError => .retry
  | .response code json200 =>
    if 500 ≤ code then .retry
    else if 200 < code ∨ json200 = none then .fail
    else
      match json200 with
      | none => .fail
      | some st =>
        if terminalStatus st then .fail
        else if st = .ACTIVE then .proceed st
        else .retry

/-! ## Keyspace mutation (AddKeyspace / DropKeyspace) -/

/-- Outcome of one `AddKeyspaceWithResponse` / `DropKeyspaceWithResponse`
call. -/
inductive MutResponse where
  | transportError
  | response (statusCode : Nat)
deriving DecidableEq

/-- The five branches of lines 87-97 (create) / 179-189 (delete), one
constructor per source branch. -/
inductive MutClass where
  | failTransport
  | retryConflict
  | failPermission
  | failOther
  | accepted
deriving DecidableEq

/-- Lines 87-97 / 179-189: classify the dependent-entity mutation
response.  Transport error: non-retryable; 409: retryable (concurrent
modification); 401: non-retryable permission failure; other >= 400:
non-retryable; otherwise accepted. -/
def classifyMutation : MutResponse → MutClass
  | .transportError => .failTransport
  | .response code =>
    if code = 409 then .retryConflict
    else if code = 401 then .failPermission
    else if 400 ≤ code then .failOther
    else .accepted

/-! ## Keyspace create / delete operations -/

/-- The Terraform state fields of the keyspace resource written by the
operations (`d.SetId` / `d.Set`). -/
structure KsState where
  id : Option (List Char)
  name : Option (List Char)
  databaseId : Option (List Char)
deriving DecidableEq

/-- Function `setKeyspaceResourceData` (lines 203-213): write the encoded id and
the two attributes.  `d.Set` on a schema-declared string attribute
cannot fail, so the error returns of the source are not reachable and
the function is modelled as total. -/
def setKeyspaceResourceData (databaseID keyspaceName : List Char) (_st : KsState) : KsState :=
  { id := some (ksEncodeID databaseID keyspaceName)
  , name := some keyspaceName
  , databaseId := some databaseID }

/-- Remote behaviour of one keyspace operation: the response to the n-th
`GetDatabase` call and to the n-th mutation (`AddKeyspace` or
`DropKeyspace`) call. -/
structure KsOracle where
  getDb : Nat → GetDbResponse
  mutate : Nat → MutResponse

/-- Result of a whole operation. -/
inductive OpResult where
  | success
  | failure
  | deadlineExceeded
deriving DecidableEq

/-- Result of a keyspace operation together with the number of calls of
each kind issued and the final Terraform state. -/
structure KsTrace where
  result : OpResult
  getDbCalls : Nat
  mutCalls : Nat
  state : KsState
deriving DecidableEq

/-- Function `resourceKeyspaceCreate` (lines 51-112): `retry.RetryContext`
re-invokes the callback of lines 58-107 on every retryable error until
the create deadline; `fuel` counts the invocations the deadline still
allows, `g` and `m` index the next `GetDatabase` and `AddKeyspace`
calls.  A retryable classification retries, a non-retryable one aborts
the operation; on ACTIVE the mutation runs and, once accepted,
`setKeyspaceResourceData` records the identity. -/
def runKeyspaceCreate (o : KsOracle) (databaseID keyspaceName : List Char) :
    Nat → Nat → Nat → KsState → KsTrace
  | 0, g, m, st => ⟨.deadlineExceeded, g, m, st⟩
  | fuel + 1, g, m, st =>
    match classifyDbResponse (o.getDb g) with
    | .retry => runKeyspaceCreate o databaseID keyspaceName fuel (g + 1) m st
    | .fail => ⟨.failure, g + 1, m, st⟩
    | .proceed _ =>
      match classifyMutation (o.mutate m) with
      | .retryConflict => runKeyspaceCreate o databaseID keyspaceName fuel (g + 1) (m + 1) st
      | .accepted =>
        ⟨.success, g + 1, m + 1, setKeyspaceResourceData databaseID keyspaceName st⟩
      | _ => ⟨.failure, g + 1, m + 1, st⟩

/-- Function `resourceKeyspaceDelete` (lines 143-201): same loop with
`DropKeyspace` as the mutation; on success the id is cleared
(`d.SetId("")`). -/
def runKeyspaceDelete (o : KsOracle) :
    Nat → Nat → Nat → KsState → KsTrace
  | 0, g, m, st => ⟨.deadlineExceeded, g, m, st⟩
  | fuel + 1, g, m, st =>
    match classifyDbResponse (o.getDb g) with
    | .retry => runKeyspaceDelete o fuel (g + 1) m st
    | .fail => ⟨.failure, g + 1, m, st⟩
    | .proceed _ =>
      match classifyMutation (o.mutate m) with
      | .retryConflict => runKeyspaceDelete o fuel (g + 1) (m + 1) st
      | .accepted => ⟨.success, g + 1, m + 1, { st with id := some [] }⟩
      | _ => ⟨.failure, g + 1, m + 1, st⟩

/-! ## CDC create (resource_cdc.go) -/

/-- The fields of one `CDCResult` entry that the provider reads. -/
structure CDCEntry where
  keyspace : List Char
  databaseTable : List Char
  connectorStatus : List Char
  dataTopic : List Char
deriving DecidableEq

/-- Go `strings.HasPrefix(resp.Status, "2")`. -/
def status2xx (s : List Char) : Bool := listStartsWith ['2'] s

/-- Go `strings.HasPrefix(resp.Status, "401")`. -/
def status401 (s : List Char) : Bool := listStartsWith ['4', '0', '1'] s

/-- Result of one `prepCDC` call (credential resolution: database
lookup, pulsar cluster derivation, token listing and token fetch); the
orchestration only branches on success versus error. -/
inductive PrepResult where
  | ok
  | error
deriving DecidableEq

/-- Outcome of one `EnableCDC` call: transport error, or an HTTP
response with its `Status` string (for example `"401 Unauthorized"`). -/
inductive EnableResponse where
  | transportError
  | response (status : List Char)

/-- Outcome of one `GetCDC` call of the convergence loop: transport
error, or a response with its `Status` string and the `CDCResult` list
its body unmarshals to (a body that fails to unmarshal leaves the list
empty: the `json.Unmarshal` error of line 383 is discarded). -/
inductive GetCDCResponse where
  | transportError
  | response (status : List Char) (body : List CDCEntry)

/-- Outcome of the enable-CDC retry loop (lines 330-363), carrying the
total number of `EnableCDC` and `prepCDC` calls the create has issued
once the loop is left. -/
inductive EnableOutcome where
  | proceeded (enableCalls prepCalls : Nat)
  | failedTransport (enableCalls prepCalls : Nat)
  | failedEscalated (enableCalls prepCalls : Nat)
  | failedPrep (enableCalls prepCalls : Nat)
  | outOfFuel (enableCalls prepCalls : Nat)
deriving DecidableEq

/-- The loop condition of line 332: enter the body while no response has
been received yet (`enableClientResult == nil`) or the last status was a
401. -/
def enableLoopCond (prev : Option (List Char)) : Bool :=
  match prev with
  | none => true
  | some s => status401 s

/-- Lines 330-363 of `resourceCDCCreate`: re-attempt `EnableCDC` while
the loop condition holds.  In one iteration: a transport error aborts
the create; a 2xx status breaks out; otherwise, if more than 6
iterations have already completed, the create aborts with the
escalation error of line 349; else `retryCount` is incremented,
credentials are re-resolved (`prepCDC`, aborting on error) and the loop
condition is re-tested against the status just received.  `e` and `p`
index the next `EnableCDC` and `prepCDC` calls. -/
def enableLoop (enable : Nat → EnableResponse) (prep : Nat → PrepResult) :
    Nat → Nat → Nat → Nat → Option (List Char) → EnableOutcome
  | 0, e, p, _, _ => .outOfFuel e p
  | fuel + 1, e, p, retryCount, prev =>
    if enableLoopCond prev then
      match enable e with
      | .transportError => .failedTransport (e + 1) p
      | .response s =>
        if status2xx s then .proceeded (e + 1) p
        else if 6 < retryCount then .failedEscalated (e + 1) p
        else
          match prep p with
          | .error => .failedPrep (e + 1) (p + 1)
          | .ok => enableLoop enable prep fuel (e + 1) (p + 1) (retryCount + 1) (some s)
    else .proceeded e p

/-- Outcome of the post-mutation convergence loop (lines 370-392), with
the number of `GetCDC` calls issued. -/
inductive ConvergeOutcome where
  | converged (entries : List CDCEntry) (getCalls : Nat)
  | failedTransport (getCalls : Nat)
  | failedStatus (getCalls : Nat)
  | failedEscalated (getCalls : Nat)
  | outOfFuel (getCalls : Nat)
deriving DecidableEq

/-- Lines 370-392 of `resourceCDCCreate`: repeat `GetCDC` while the
deserialized listing is empty.  A transport error aborts; a non-2xx
status aborts; otherwise the body becomes the new listing and — exactly
as in the source, where `retryCount` is reset to 0 before the loop and
never incremented inside it — the escalation of line 389 fires only if
`retryCount` exceeds 6. -/
def convergeLoop (getCDC : Nat → GetCDCResponse) :
    Nat → Nat → Nat → List CDCEntry → ConvergeOutcome
  | 0, g, _, _ => .outOfFuel g
  | fuel + 1, g, retryCount, cur =>
    if cur.isEmpty then
      match getCDC g with
      | .transportError => .failedTransport (g + 1)
      | .response s body =>
        if status2xx s = false then .failedStatus (g + 1)
        else if 6 < retryCount then .failedEscalated (g + 1)
        else convergeLoop getCDC fuel (g + 1) retryCount body
    else .converged cur g

/-- Remote behaviour of one CDC create: whether the initial organization
read (lines 298-304) succeeds, and the responses to the n-th `prepCDC`,
`EnableCDC` and `GetCDC` calls. -/
structure CDCOracle where
  orgOk : Bool
  prep : Nat → PrepResult
  enable : Nat → EnableResponse
  getCDC : Nat → GetCDCResponse

/-- Terraform state fields of the CDC resource written by create and
read. -/
structure CDCState where
  connectorStatus : Option (List Char)
  dataTopic : Option (List Char)
  id : Option (List Char)
deriving DecidableEq

/-- Result of a CDC create: success, a returned diagnostic error, or —
since the two source loops carry no deadline — still looping when the
modelling fuel runs out. -/
inductive CDCCreateResult where
  | success
  | failure
  | stillLooping
deriving DecidableEq

/-- Function `resourceCDCCreate` (lines 284-406): read the organization, resolve
credentials (line 320), run the enable-CDC retry loop, run the
convergence loop with `retryCount` reset to 0, then set the computed
attributes from the first listing entry and record the id built by
`fmt.Sprintf("%s/%s/%s/%s", databaseId, keyspace, table, tenantName)`. -/
def runCDCCreate (o : CDCOracle) (fuel : Nat)
    (databaseId keyspace table tenantName : List Char) (st : CDCState) :
    CDCCreateResult × CDCState :=
  if o.orgOk = false then (.failure, st)
  else
    match o.prep 0 with
    | .error => (.failure, st)
    | .ok =>
      match enableLoop o.enable o.prep fuel 0 1 0 none with
      | .outOfFuel _ _ => (.stillLooping, st)
      | .proceeded _ _ =>
        match convergeLoop o.getCDC fuel 0 0 [] with
        | .converged entries _ =>
          match entries with
          | [] => (.failure, st)
          | e0 :: _ =>
            (.success,
              { connectorStatus := some e0.connectorStatus
              , dataTopic := some e0.dataTopic
              , id := some (cdcEncodeID databaseId keyspace table tenantName) })
        | .outOfFuel _ => (.stillLooping, st)
        | _ => (.failure, st)
      | _ => (.failure, st)

/-! ## getPulsarToken and the CDC read scan -/

/-- The `IdListTenantTokens` call as `getPulsarToken` sees it: transport
error, body that fails to unmarshal, or the list of token ids the body
unmarshals to. -/
inductive TokenListCall where
  | transportError
  | badBody
  | ok (tokenIds : List (List Char))
deriving DecidableEq

/-- The `GetTokenByID` call. -/
inductive TokenFetchCall where
  | transportError
  | ok (body : List Char)
deriving DecidableEq

/-- Outcome of a Go function that can also crash: a value, a returned
error, or a runtime panic. -/
inductive GoOutcome (α : Type) where
  | ok (value : α)
  | error
  | panicked
deriving DecidableEq

/-- Function `getPulsarToken` (lines 430-468): list the tenant tokens (transport
or unmarshal failure returns an error), index the first element
(`streamingTokens[0].Tokenid`, line 452) with no emptiness guard, then
fetch that token's material. -/
def getPulsarToken (listCall : TokenListCall) (fetchCall : TokenFetchCall) :
    GoOutcome (List Char) :=
  match listCall with
  | .transportError => .error
  | .badBody => .error
  | .ok tokenIds =>
    match tokenIds with
    | [] => .panicked
    | _ :: _ =>
      match fetchCall with
      | .transportError => .error
      | .ok body => .ok body

/-- The loop of lines 225-231 of `resourceCDCRead` plus its fall-through
(lines 233-241): return with the state untouched on the first entry
matching both the decoded keyspace and table; after the loop, set the
computed attributes from `cdcResult[0]` — the first entry of the
listing, matching or not, indexed with no emptiness guard — and clear
the id.  `orig` is the full listing, the last argument the entries
still to scan. -/
def cdcReadLoop (keyspace table : List Char) (orig : List CDCEntry) (st : CDCState) :
    List CDCEntry → GoOutcome CDCState
  | [] =>
    match orig with
    | [] => .panicked
    | e0 :: _ =>
      .ok { st with
              connectorStatus := some e0.connectorStatus,
              dataTopic := some e0.dataTopic,
              id := some [] }
  | e :: rest =>
    if e.keyspace = keyspace ∧ e.databaseTable = table then .ok st
    else cdcReadLoop keyspace table orig st rest

/-- The portion of `resourceCDCRead` that follows a successful `GetCDC`
listing. -/
def cdcReadScan (keyspace table : List Char) (entries : List CDCEntry) (st : CDCState) :
    GoOutcome CDCState :=
  cdcReadLoop keyspace table entries st entries

/-! ## Concrete remote behaviours used to instantiate the theorems -/

/-- A parent database that reports `TERMINATED` on every status read. -/
def ksOracleTerminated : KsOracle :=
  { getDb := fun _ => .response 200 (some .TERMINATED)
  , mutate := fun _ => .response 201 }

/-- Credential resolution that always succeeds. -/
def prepAlwaysOk : Nat → PrepResult := fun _ => .ok

/-- An `EnableCDC` endpoint answering `"401 Unauthorized"` forever. -/
def enable401 : Nat → EnableResponse := fun _ => .response ['4', '0', '1']

/-- An `EnableCDC` endpoint answering `"403 Forbidden"` forever. -/
def enable403 : Nat → EnableResponse := fun _ => .response ['4', '0', '3']

/-- A `GetCDC` endpoint that always succeeds (`"200 OK"`) with an empty
listing. -/
def getCDCAlwaysEmpty : Nat → GetCDCResponse :=
  fun _ => .response ['2', '0', '0'] []

/-- A CDC create behaviour whose credential resolution always fails. -/
def cdcOraclePrepFails : CDCOracle :=
  { orgOk := true
  , prep := fun _ => .error
  , enable := enable401
  , getCDC := getCDCAlwaysEmpty }

/-! ## Lemmas about the string primitives -/

theorem toNat_ofNat_valid (n : Nat) (h : n.isValidChar) :
    (Char.ofNat n).toNat = n := by
  simp [Char.ofNat, h, Char.ofNatAux, Char.toNat, UInt32.toNat, UInt32.ofNatCore]

theorem char_eq_of_toNat_eq {c c' : Char} (h : c.toNat = c'.toNat) : c = c' :=
  Char.eq_of_val_eq (UInt32.ext h)

/-- ASCII lower-casing maps a character to the separator `'/'` exactly
when the character already is `'/'` (no upper-case letter lowers to a
slash). -/
theorem goToLowerChar_eq_slash_iff (c : Char) :
    goToLowerChar c = '/' ↔ c = '/' := by
  constructor
  · intro h
    unfold goToLowerChar at h
    split at h
    · rename_i hc
      exfalso
      have hvalid : Nat.isValidChar (c.toNat + 32) := Or.inl (by omega)
      have htn := congrArg Char.toNat h
      rw [toNat_ofNat_valid _ hvalid] at htn
      have hslash : ('/').toNat = 47 := by decide
      omega
    · exact h
  · intro h
    subst h
    decide

/-- Consuming the remaining characters of a matched separator: skipping
`pre.length` characters of `pre ++ b` resumes the scan at `b`. -/
theorem splitSepAux_skip (c0 : Char) (sr : List Char) :
    ∀ pre b : List Char,
      splitSepAux c0 sr (pre ++ b) pre.length = splitSepAux c0 sr b 0 := by
  intro pre
  induction pre with
  | nil => intro b; rfl
  | cons c rest ih =>
    intro b
    show splitSepAux c0 sr (c :: (rest ++ b)) (rest.length + 1) = splitSepAux c0 sr b 0
    rw [splitSepAux]
    exact ih b

/-- Splitting a string that does not contain the leading character of the
separator yields the single-segment list. -/
theorem splitSep_of_not_mem (c0 : Char) (sr : List Char) :
    ∀ s : List Char, c0 ∉ s → splitSep c0 sr s = [s] := by
  intro s
  induction s with
  | nil => intro _; rfl
  | cons c rest ih =>
    intro h
    have hc : ¬(c = c0) := fun hc => h (hc ▸ List.mem_cons_self c rest)
    have hrest : c0 ∉ rest := fun hr => h (List.mem_cons_of_mem c hr)
    rw [splitSep, splitSepAux]
    rw [if_neg (fun hconj => hc hconj.1)]
    have := ih hrest
    rw [splitSep] at this
    rw [this]

/-- Splitting `a ++ sep ++ b` where the separator's leading character
does not occur in `a` peels off `a` as the first segment. -/
theorem splitSep_append (c0 : Char) (sr : List Char) :
    ∀ a b : List Char, c0 ∉ a →
      splitSep c0 sr (a ++ (c0 :: sr) ++ b) = a :: splitSep c0 sr b := by
  intro a
  induction a with
  | nil =>
    intro b _
    simp only [List.nil_append, List.cons_append]
    rw [splitSep, splitSepAux]
    rw [if_pos ⟨rfl, List.isPrefixOf_iff_prefix.mpr (List.prefix_append sr b)⟩]
    rw [splitSepAux_skip]
    rfl
  | cons c rest ih =>
    intro b h
    have hc : ¬(c = c0) := fun hc => h (hc ▸ List.mem_cons_self c rest)
    have hrest : c0 ∉ rest := fun hr => h (List.mem_cons_of_mem c hr)
    simp only [List.cons_append]
    rw [splitSep, splitSepAux]
    rw [if_neg (fun hconj => hc hconj.1)]
    have := ih b hrest
    rw [splitSep] at this
    rw [this]

/-- Single-character split commutes with a character map that preserves
the separator in both directions. -/
theorem splitSep_map (f : Char → Char) (c0 : Char)
    (hf : ∀ c, f c = c0 ↔ c = c0) :
    ∀ s : List Char,
      splitSep c0 [] (s.map f) = (splitSep c0 [] s).map (List.map f) := by
  intro s
  induction s with
  | nil => rfl
  | cons c rest ih =>
    by_cases hc : c = c0
    · subst hc
      simp only [splitSep, List.map_cons] at ih ⊢
      rw [splitSepAux, splitSepAux]
      rw [if_pos ⟨(hf c).mpr rfl, by simp [List.isPrefixOf]⟩]
      rw [if_pos ⟨rfl, by simp [List.isPrefixOf]⟩]
      simp only [List.length_nil]
      rw [ih]
      simp
    · have hfc : ¬(f c = c0) := fun hfc => hc ((hf c).mp hfc)
      simp only [splitSep, List.map_cons] at ih ⊢
      rw [splitSepAux, splitSepAux]
      rw [if_neg (fun hconj => hfc hconj.1)]
      rw [if_neg (fun hconj => hc hconj.1)]
      rw [ih]
      cases hsplit : splitSepAux c0 [] rest 0 with
      | nil => simp
      | cons seg segs => simp

/-- The segment count of a CDC id is unchanged by lower-casing. -/
theorem splitSep_goToLower_length (s : List Char) :
    (splitSep '/' [] (goToLower s)).length = (splitSep '/' [] s).length := by
  rw [goToLower, splitSep_map goToLowerChar '/' goToLowerChar_eq_slash_iff]
  simp

/-- Single-character variant of `splitSep_append`. -/
theorem splitSep_append_single (c0 : Char) (a b : List Char) (h : c0 ∉ a) :
    splitSep c0 [] (a ++ c0 :: b) = a :: splitSep c0 [] b := by
  have happ := splitSep_append c0 [] a b h
  simpa using happ

/-! ## Classification lemmas for the parent-status poll -/

theorem classify_transport : classifyDbResponse .transportError = .retry := rfl

theorem classify_5xx (code : Nat) (json200 : Option DbStatus) (h : 500 ≤ code) :
    classifyDbResponse (.response code json200) = .retry := by
  simp only [classifyDbResponse]
  rw [if_pos h]

theorem classify_unexpected (code : Nat) (json200 : Option DbStatus)
    (h1 : code < 500) (h2 : 200 < code ∨ json200 = none) :
    classifyDbResponse (.response code json200) = .fail := by
  simp only [classifyDbResponse]
  rw [if_neg (by omega), if_pos h2]

theorem classify_terminal (code : Nat) (st : DbStatus)
    (h1 : code ≤ 200) (h2 : terminalStatus st = true) :
    classifyDbResponse (.response code (some st)) = .fail := by
  simp only [classifyDbResponse]
  rw [if_neg (by omega), if_neg (by simp; omega)]
  rw [if_pos h2]

theorem classify_active (code : Nat) (h : code ≤ 200) :
    classifyDbResponse (.response code (some .ACTIVE)) = .proceed .ACTIVE := by
  simp only [classifyDbResponse]
  rw [if_neg (by omega), if_neg (by simp; omega)]
  rw [if_neg (by decide)]
  simp

theorem classify_other_status (code : Nat) (st : DbStatus)
    (h1 : code ≤ 200) (h2 : terminalStatus st = false) (h3 : st ≠ .ACTIVE) :
    classifyDbResponse (.response code (some st)) = .retry := by
  simp only [classifyDbResponse]
  rw [if_neg (by omega), if_neg (by simp; omega)]
  rw [if_neg (by simp [h2]), if_neg h3]

/-! ## Claim theorems -/

/-- C1: the status-polling step classifies every parent-status response
in the fixed priority order: a transport error yields Retry; a status
code >= 500 yields Retry; otherwise a code > 200 or a missing JSON body
yields a non-retryable Fail; otherwise a terminal body status (Error,
Terminated, Terminating) yields Fail — never Proceed or Retry; an
Active body status yields Proceed; and every other body status yields
Retry. -/
theorem statusPoller_classification :
    (classifyDbResponse .transportError = .retry)
    ∧ (∀ (code : Nat) (json200 : Option DbStatus), 500 ≤ code →
        classifyDbResponse (.response code json200) = .retry)
    ∧ (∀ (code : Nat) (json200 : Option DbStatus),
        code < 500 → (200 < code ∨ json200 = none) →
        classifyDbResponse (.response code json200) = .fail)
    ∧ (∀ (code : Nat) (st : DbStatus), code ≤ 200 → terminalStatus st = true →
        classifyDbResponse (.response code (some st)) = .fail)
    ∧ (∀ code : Nat, code ≤ 200 →
        classifyDbResponse (.response code (some .ACTIVE)) = .proceed .ACTIVE)
    ∧ (∀ (code : Nat) (st : DbStatus),
        code ≤ 200 → terminalStatus st = false → st ≠ .ACTIVE →
        classifyDbResponse (.response code (some st)) = .retry) :=
  ⟨classify_transport, classify_5xx, classify_unexpected, classify_terminal,
   classify_active, classify_other_status⟩

/-- Witness for the C1 theorem at concrete responses: a terminal status
on a 200 response fails, Active proceeds, a transient status retries. -/
theorem statusPoller_classification_witness :
    classifyDbResponse (.response 200 (some .TERMINATED)) = .fail
    ∧ classifyDbResponse (.response 200 (some .ACTIVE)) = .proceed .ACTIVE
    ∧ classifyDbResponse (.response 200 (some .PENDING)) = .retry :=
  ⟨statusPoller_classification.2.2.2.1 200 .TERMINATED (by omega) (by decide),
   statusPoller_classification.2.2.2.2.1 200 (by omega),
   statusPoller_classification.2.2.2.2.2 200 .PENDING (by omega) (by decide)
     (by decide)⟩

/-- C6: decoding an identity string whose split on the expected
delimiter does not have the expected arity (2 for the keyspace id split
on "/keyspace/", 4 for the CDC id split on "/") fails with the
structural error and returns no field values. -/
theorem decode_wrong_arity_fails :
    (∀ id : List Char, (splitSep '/' keyspaceSepTail id).length ≠ 2 →
      parseKeyspaceID id =
        Except.error "invalid keyspace id format: expected database_id/keyspace")
    ∧ (∀ id : List Char, (splitSep '/' [] id).length ≠ 4 →
      parseCDCID id =
        Except.error "invalid role id format: expected databaseId/keyspace/table/tenantName") := by
  constructor
  · intro id h
    unfold parseKeyspaceID
    cases hs : splitSep '/' keyspaceSepTail id with
    | nil => rfl
    | cons a t1 =>
      cases t1 with
      | nil => rfl
      | cons b t2 =>
        cases t2 with
        | nil => exact absurd (by rw [hs]; rfl) h
        | cons c t3 => rfl
  · intro id h
    have hlen : (splitSep '/' [] (goToLower id)).length ≠ 4 := by
      rw [splitSep_goToLower_length]
      exact h
    unfold parseCDCID
    cases hs : splitSep '/' [] (goToLower id) with
    | nil => rfl
    | cons a t1 =>
      cases t1 with
      | nil => rfl
      | cons b t2 =>
        cases t2 with
        | nil => rfl
        | cons c t3 =>
          cases t3 with
          | nil => rfl
          | cons d t4 =>
            cases t4 with
            | nil => exact absurd (by rw [hs]; rfl) hlen
            | cons e t5 => rfl

/-- Witness for the C6 theorem: two concrete wrong-arity ids. -/
theorem decode_wrong_arity_fails_witness :
    parseKeyspaceID ['a', 'b'] =
      Except.error "invalid keyspace id format: expected database_id/keyspace"
    ∧ parseCDCID ['a', '/', 'b'] =
      Except.error "invalid role id format: expected databaseId/keyspace/table/tenantName" :=
  ⟨decode_wrong_arity_fails.1 ['a', 'b'] (by decide),
   decode_wrong_arity_fails.2 ['a', '/', 'b'] (by decide)⟩

/-- C7: when the first parent-status read of a keyspace create or delete
returns a successfully fetched body with a terminal status, the
operation fails immediately — one status read, zero mutation calls, the
state untouched. -/
theorem terminal_parent_fails_immediately
    (o : KsOracle) (databaseID keyspaceName : List Char) (fuel : Nat)
    (st : KsState) (code : Nat) (dbst : DbStatus)
    (hresp : o.getDb 0 = .response code (some dbst))
    (hcode : code ≤ 200) (hterm : terminalStatus dbst = true) :
    runKeyspaceCreate o databaseID keyspaceName (fuel + 1) 0 0 st = ⟨.failure, 1, 0, st⟩
    ∧ runKeyspaceDelete o (fuel + 1) 0 0 st = ⟨.failure, 1, 0, st⟩ := by
  constructor
  · rw [runKeyspaceCreate, hresp, classify_terminal code dbst hcode hterm]
  · rw [runKeyspaceDelete, hresp, classify_terminal code dbst hcode hterm]

/-- Witness for the C7 theorem: parent terminated on the first read. -/
theorem terminal_parent_fails_immediately_witness :
    runKeyspaceCreate ksOracleTerminated ['d'] ['k'] 5 0 0 ⟨none, none, none⟩
      = ⟨.failure, 1, 0, ⟨none, none, none⟩⟩
    ∧ runKeyspaceDelete ksOracleTerminated 5 0 0 ⟨none, none, none⟩
      = ⟨.failure, 1, 0, ⟨none, none, none⟩⟩ :=
  terminal_parent_fails_immediately ksOracleTerminated ['d'] ['k'] 4
    ⟨none, none, none⟩ 200 .TERMINATED rfl (by omega) (by decide)

/-- C9: when the tenant-token listing call succeeds but deserializes to
an empty list, `getPulsarToken` hits the unguarded `streamingTokens[0]`
index and panics; it does not return an error outcome. -/
theorem getPulsarToken_empty_list_panics :
    ∀ fetchCall : TokenFetchCall,
      getPulsarToken (.ok []) fetchCall = .panicked
      ∧ getPulsarToken (.ok []) fetchCall ≠ .error :=
  fun _ => ⟨rfl, by simp [getPulsarToken]⟩


/-! ## The CDC read scan -/

/-- If some entry of the remaining scan matches both keys, the read loop
returns with the state untouched. -/
theorem cdcReadLoop_found (ks tbl : List Char) (orig : List CDCEntry) (st : CDCState) :
    ∀ scan : List CDCEntry,
      (∃ e ∈ scan, e.keyspace = ks ∧ e.databaseTable = tbl) →
      cdcReadLoop ks tbl orig st scan = .ok st := by
  intro scan
  induction scan with
  | nil => rintro ⟨e, he, _⟩; cases he
  | cons e rest ih =>
    rintro ⟨f, hf, hmatch⟩
    rw [cdcReadLoop]
    by_cases hc : e.keyspace = ks ∧ e.databaseTable = tbl
    · rw [if_pos hc]
    · rw [if_neg hc]
      rcases List.mem_cons.mp hf with hfe | hfr
      · exact absurd (hfe ▸ hmatch) hc
      · exact ih ⟨f, hfr, hmatch⟩

/-- If no entry of the remaining scan matches, the read loop reaches the
fall-through of the full listing. -/
theorem cdcReadLoop_no_match (ks tbl : List Char) (orig : List CDCEntry) (st : CDCState) :
    ∀ scan : List CDCEntry,
      (∀ e ∈ scan, ¬(e.keyspace = ks ∧ e.databaseTable = tbl)) →
      cdcReadLoop ks tbl orig st scan = cdcReadLoop ks tbl orig st [] := by
  intro scan
  induction scan with
  | nil => intro _; rfl
  | cons e rest ih =>
    intro h
    rw [cdcReadLoop]
    rw [if_neg (h e (List.mem_cons_self e rest))]
    exact ih (fun f hf => h f (List.mem_cons_of_mem e hf))

/-- C10: if some listing entry matches both the decoded keyspace and
table, the CDC read returns success with the state untouched — the
computed attributes are not set and the id is unchanged; if no entry
matches, the computed attributes are set from the first listing entry
(matching or not) and the id is cleared; and with no match possible on
an empty listing, the unguarded access of the first entry panics. -/
theorem cdcRead_scan_behaviour :
    (∀ (ks tbl : List Char) (entries : List CDCEntry) (st : CDCState),
      (∃ e ∈ entries, e.keyspace = ks ∧ e.databaseTable = tbl) →
      cdcReadScan ks tbl entries st = .ok st)
    ∧ (∀ (ks tbl : List Char) (e0 : CDCEntry) (rest : List CDCEntry) (st : CDCState),
      (∀ e ∈ e0 :: rest, ¬(e.keyspace = ks ∧ e.databaseTable = tbl)) →
      cdcReadScan ks tbl (e0 :: rest) st =
        .ok { st with
                connectorStatus := some e0.connectorStatus,
                dataTopic := some e0.dataTopic,
                id := some [] })
    ∧ (∀ (ks tbl : List Char) (st : CDCState),
      cdcReadScan ks tbl [] st = .panicked) := by
  refine ⟨?_, ?_, ?_⟩
  · intro ks tbl entries st h
    exact cdcReadLoop_found ks tbl entries st entries h
  · intro ks tbl e0 rest st h
    unfold cdcReadScan
    rw [cdcReadLoop_no_match ks tbl (e0 :: rest) st (e0 :: rest) h]
    rfl
  · intro ks tbl st
    rfl

/-- Witness for the C10 theorem on a two-entry listing: an entry match
leaves the state alone; no match sets the attributes from the first
entry and clears the id; the empty listing panics. -/
theorem cdcRead_scan_behaviour_witness :
    cdcReadScan ['k'] ['t']
      [⟨['x'], ['y'], ['R'], ['p']⟩, ⟨['k'], ['t'], ['S'], ['q']⟩]
      ⟨none, none, some ['i']⟩ = .ok ⟨none, none, some ['i']⟩
    ∧ cdcReadScan ['k'] ['t'] [⟨['x'], ['y'], ['R'], ['p']⟩]
      ⟨none, none, some ['i']⟩ = .ok ⟨some ['R'], some ['p'], some []⟩
    ∧ cdcReadScan ['k'] ['t'] [] ⟨none, none, some ['i']⟩ = .panicked :=
  ⟨cdcRead_scan_behaviour.1 ['k'] ['t'] _ _ (by decide),
   cdcRead_scan_behaviour.2.1 ['k'] ['t'] ⟨['x'], ['y'], ['R'], ['p']⟩ [] _ (by decide),
   cdcRead_scan_behaviour.2.2 ['k'] ['t'] _⟩

/-! ## IdentityCodec round-trip -/

/-- C5 (counterexample): the four-field decode lower-cases the id
before splitting, so a well-formed tuple containing an upper-case
letter does not round-trip: encoding the fields ("d", "k", "AB", "t")
and decoding yields ("d", "k", "ab", "t"), not the original tuple. -/
theorem cdc_roundtrip_counterexample :
    parseCDCID (cdcEncodeID ['d'] ['k'] ['A', 'B'] ['t'])
      = Except.ok (['d'], ['k'], ['a', 'b'], ['t'])
    ∧ parseCDCID (cdcEncodeID ['d'] ['k'] ['A', 'B'] ['t'])
      ≠ Except.ok (['d'], ['k'], ['A', 'B'], ['t']) := by
  constructor
  · rfl
  · intro h
    rw [show parseCDCID (cdcEncodeID ['d'] ['k'] ['A', 'B'] ['t'])
          = Except.ok (['d'], ['k'], ['a', 'b'], ['t']) from rfl] at h
    simp at h

/-- C5 (amended): encode then decode restores the fields, up to the
lower-casing the four-field decode performs.  For the two-field entity
any fields free of the character '/' round-trip exactly; for the
four-field entity a tuple round-trips exactly when its fields are
additionally already lower-case (decode otherwise returns their
lower-casing). -/
theorem id_codec_roundtrip :
    (∀ db ks : List Char, '/' ∉ db → '/' ∉ ks →
      parseKeyspaceID (ksEncodeID db ks) = Except.ok (db, ks))
    ∧ (∀ a b c d : List Char,
      '/' ∉ a → '/' ∉ b → '/' ∉ c → '/' ∉ d →
      goToLower a = a → goToLower b = b → goToLower c = c → goToLower d = d →
      parseCDCID (cdcEncodeID a b c d) = Except.ok (a, b, c, d)) := by
  constructor
  · intro db ks hdb hks
    unfold parseKeyspaceID ksEncodeID
    rw [splitSep_append '/' keyspaceSepTail db ks hdb]
    rw [splitSep_of_not_mem '/' keyspaceSepTail ks hks]
  · intro a b c d ha hb hc hd la lb lc ld
    have hslash : goToLowerChar '/' = '/' := by decide
    have hdist : goToLower (cdcEncodeID a b c d) = cdcEncodeID a b c d := by
      unfold goToLower at la lb lc ld ⊢
      simp [cdcEncodeID, hslash, la, lb, lc, ld]
    unfold parseCDCID
    rw [hdist]
    unfold cdcEncodeID
    rw [splitSep_append_single '/' a _ ha]
    rw [splitSep_append_single '/' b _ hb]
    rw [splitSep_append_single '/' c _ hc]
    rw [splitSep_of_not_mem '/' [] d hd]

/-- Witness for the amended C5 theorem at concrete slash-free,
lower-case fields. -/
theorem id_codec_roundtrip_witness :
    parseKeyspaceID (ksEncodeID ['d', '1'] ['k', 's'])
      = Except.ok (['d', '1'], ['k', 's'])
    ∧ parseCDCID (cdcEncodeID ['d'] ['k'] ['t', 'b'] ['t', 'n'])
      = Except.ok (['d'], ['k'], ['t', 'b'], ['t', 'n']) :=
  ⟨id_codec_roundtrip.1 ['d', '1'] ['k', 's'] (by decide) (by decide),
   id_codec_roundtrip.2 ['d'] ['k'] ['t', 'b'] ['t', 'n'] (by decide) (by decide)
     (by decide) (by decide) (by decide) (by decide) (by decide) (by decide)⟩

/-! ## The convergence loop -/

/-- C3: the convergence poll's retry ceiling is dead code.  With a
listing that never becomes non-empty (every `GetCDC` call succeeding
with a 2xx status and an empty result), `retryCount` is never
incremented, so the escalation guard of line 389 can never fire: after
any number of iterations the loop has neither converged nor failed and
is still running — there is no bounded attempt ceiling ending in a
convergence-timeout failure. -/
theorem convergeLoop_never_terminates :
    ∀ fuel g : Nat,
      convergeLoop getCDCAlwaysEmpty fuel g 0 [] = .outOfFuel (g + fuel) := by
  intro fuel
  induction fuel with
  | zero => intro g; rfl
  | succ n ih =>
    intro g
    have hstep : convergeLoop getCDCAlwaysEmpty (n + 1) g 0 [] =
        convergeLoop getCDCAlwaysEmpty n (g + 1) 0 [] := rfl
    rw [hstep, ih (g + 1)]
    congr 1
    omega

/-! ## The CDC enable retry loop -/

/-- C4 (failing input): the CDC enable mutation does not fail on 4xx
statuses other than 401: a "403 Forbidden" response is neither retried
nor reported — after one further credential resolution the retry loop
exits and the create proceeds to the convergence poll as if the
mutation had been accepted.  (The keyspace mutation classifier, by
contrast, does fail a 403 as the claim states: second conjunct.) -/
theorem cdc_enable_403_proceeds :
    enableLoop enable403 prepAlwaysOk 5 0 1 0 none = .proceeded 1 2
    ∧ classifyMutation (.response 403) = .failOther := ⟨rfl, rfl⟩

/-- C2 (counterexample): with every enable attempt answered 401 and
credential resolution always succeeding, the enable retry loop reaches
the terminal error only after 8 mutation attempts with 8 credential
resolutions — strictly more than the claimed fixed bound of 6-7, which
the credential-resolution count therefore also exceeds. -/
theorem cdc_enable_401_count_counterexample :
    enableLoop enable401 prepAlwaysOk 20 0 1 0 none = .failedEscalated 8 8
    ∧ ¬(8 ≤ 7) := ⟨rfl, by omega⟩

/-- C2 (amended): for every remote behaviour in which each `EnableCDC`
attempt returns a non-2xx status with prefix "401" while every
`prepCDC` succeeds, and for every fuel of at least 8, the enable retry
loop terminates in the escalated terminal error of line 349 after
exactly 8 mutation attempts (the initial attempt plus 7 retries) and
exactly 8 credential resolutions (one before the loop plus one per
retry) — in particular the create does not loop indefinitely, and the
whole create operation ends in a terminal failure. -/
theorem cdc_enable_401_bound (enable : Nat → EnableResponse) (prep : Nat → PrepResult)
    (s : Nat → List Char)
    (hresp : ∀ n, enable n = .response (s n))
    (h401 : ∀ n, status401 (s n) = true)
    (h2xx : ∀ n, status2xx (s n) = false)
    (hprep : ∀ n, prep n = .ok) :
    ∀ fuel, 8 ≤ fuel →
      enableLoop enable prep fuel 0 1 0 none = .failedEscalated 8 8
      ∧ ∀ (g : Nat → GetCDCResponse) (dbId ks tbl tn : List Char) (st : CDCState),
          (runCDCCreate ⟨true, prep, enable, g⟩ fuel dbId ks tbl tn st).1 = .failure := by
  have hstep : ∀ (fuel e p rc : Nat) (prev : Option (List Char)),
      enableLoopCond prev = true → rc ≤ 6 →
      enableLoop enable prep (fuel + 1) e p rc prev =
        enableLoop enable prep fuel (e + 1) (p + 1) (rc + 1) (some (s e)) := by
    intro fuel e p rc prev hcond hrc
    rw [enableLoop, if_pos hcond]
    simp only [hresp e]
    rw [if_neg (by simp [h2xx e])]
    rw [if_neg (by omega : ¬ 6 < rc)]
    simp only [hprep p]
  have hfinal : ∀ (fuel e p : Nat) (prev : Option (List Char)),
      enableLoopCond prev = true →
      enableLoop enable prep (fuel + 1) e p 7 prev = .failedEscalated (e + 1) p := by
    intro fuel e p prev hcond
    rw [enableLoop, if_pos hcond]
    simp only [hresp e]
    rw [if_neg (by simp [h2xx e])]
    rw [if_pos (by omega : 6 < 7)]
  have hmain : ∀ (fuel rc e p : Nat) (prev : Option (List Char)),
      enableLoopCond prev = true → rc ≤ 7 → 8 - rc ≤ fuel →
      enableLoop enable prep fuel e p rc prev =
        .failedEscalated (e + (8 - rc)) (p + (7 - rc)) := by
    intro fuel
    induction fuel with
    | zero => intro rc e p prev _ h1 h2; omega
    | succ n ih =>
      intro rc e p prev hcond hrc hfuel
      by_cases h7 : rc = 7
      · subst h7
        rw [hfinal n e p prev hcond]
        congr 1
      · rw [hstep n e p rc prev hcond (by omega)]
        rw [ih (rc + 1) (e + 1) (p + 1) (some (s e))
          (by simp [enableLoopCond, h401 e]) (by omega) (by omega)]
        congr 1 <;> omega
  intro fuel h8
  have hloop : enableLoop enable prep fuel 0 1 0 none = .failedEscalated 8 8 := by
    have := hmain fuel 0 0 1 none rfl (by omega) (by omega)
    simpa using this
  refine ⟨hloop, ?_⟩
  intro g dbId ks tbl tn st
  simp only [runCDCCreate]
  rw [if_neg (by simp)]
  simp only [hprep 0]
  rw [hloop]

/-- Witness for the amended C2 theorem: the concrete all-401 behaviour
with fuel 20. -/
theorem cdc_enable_401_bound_witness :
    enableLoop enable401 prepAlwaysOk 20 0 1 0 none = .failedEscalated 8 8
    ∧ (runCDCCreate ⟨true, prepAlwaysOk, enable401, getCDCAlwaysEmpty⟩ 20
        ['d'] ['k'] ['t'] ['n'] ⟨none, none, none⟩).1 = .failure := by
  have h := cdc_enable_401_bound enable401 prepAlwaysOk (fun _ => ['4', '0', '1'])
    (fun _ => rfl) (fun _ => rfl) (fun _ => rfl) (fun _ => rfl) 20 (by omega)
  exact ⟨h.1, h.2 getCDCAlwaysEmpty ['d'] ['k'] ['t'] ['n'] ⟨none, none, none⟩⟩

/-! ## Frame property of the create operations -/

/-- Any non-success run of the keyspace create leaves the Terraform
state untouched. -/
theorem runKeyspaceCreate_frame (o : KsOracle) (dbID ks : List Char) :
    ∀ (fuel g m : Nat) (st : KsState),
      (runKeyspaceCreate o dbID ks fuel g m st).result ≠ .success →
      (runKeyspaceCreate o dbID ks fuel g m st).state = st := by
  intro fuel
  induction fuel with
  | zero => intro g m st _; rfl
  | succ n ih =>
    intro g m st h
    rw [runKeyspaceCreate] at h ⊢
    cases hc : classifyDbResponse (o.getDb g) with
    | retry => rw [hc] at h; exact ih (g + 1) m st h
    | fail => rfl
    | proceed v =>
      cases hm : classifyMutation (o.mutate m) with
      | retryConflict => rw [hc, hm] at h; exact ih (g + 1) (m + 1) st h
      | accepted => rw [hc, hm] at h; exact absurd rfl h
      | failTransport => rfl
      | failPermission => rfl
      | failOther => rfl

/-- A successful keyspace create records exactly the encoded id. -/
theorem runKeyspaceCreate_success_id (o : KsOracle) (dbID ks : List Char) :
    ∀ (fuel g m : Nat) (st : KsState),
      (runKeyspaceCreate o dbID ks fuel g m st).result = .success →
      (runKeyspaceCreate o dbID ks fuel g m st).state.id = some (ksEncodeID dbID ks) := by
  intro fuel
  induction fuel with
  | zero => intro g m st h; simp [runKeyspaceCreate] at h
  | succ n ih =>
    intro g m st h
    rw [runKeyspaceCreate] at h ⊢
    cases hc : classifyDbResponse (o.getDb g) with
    | retry => rw [hc] at h; exact ih (g + 1) m st h
    | fail => simp [hc] at h
    | proceed v =>
      cases hm : classifyMutation (o.mutate m) with
      | retryConflict => rw [hc, hm] at h; exact ih (g + 1) (m + 1) st h
      | accepted => rfl
      | failTransport => simp [hc, hm] at h
      | failPermission => simp [hc, hm] at h
      | failOther => simp [hc, hm] at h

/-- Any non-success run of the CDC create leaves the Terraform state
untouched. -/
theorem runCDCCreate_frame (o : CDCOracle) (fuel : Nat)
    (dbId ks tbl tn : List Char) (st : CDCState)
    (h : (runCDCCreate o fuel dbId ks tbl tn st).1 ≠ .success) :
    (runCDCCreate o fuel dbId ks tbl tn st).2 = st := by
  unfold runCDCCreate at h ⊢
  by_cases horg : o.orgOk = false
  · rw [if_pos horg]
  · rw [if_neg horg] at h ⊢
    cases hp : o.prep 0 with
    | error => rfl
    | ok =>
      rw [hp] at h
      cases he : enableLoop o.enable o.prep fuel 0 1 0 none with
      | proceeded e p =>
        rw [he] at h
        cases hcv : convergeLoop o.getCDC fuel 0 0 [] with
        | converged entries g =>
          rw [hcv] at h
          cases entries with
          | nil => rfl
          | cons e0 rest => exact absurd rfl h
        | failedTransport g => rfl
        | failedStatus g => rfl
        | failedEscalated g => rfl
        | outOfFuel g => rfl
      | failedTransport e p => rfl
      | failedEscalated e p => rfl
      | failedPrep e p => rfl
      | outOfFuel e p => rfl

/-- A successful CDC create records exactly the encoded id. -/
theorem runCDCCreate_success_id (o : CDCOracle) (fuel : Nat)
    (dbId ks tbl tn : List Char) (st : CDCState)
    (h : (runCDCCreate o fuel dbId ks tbl tn st).1 = .success) :
    (runCDCCreate o fuel dbId ks tbl tn st).2.id = some (cdcEncodeID dbId ks tbl tn) := by
  unfold runCDCCreate at h ⊢
  by_cases horg : o.orgOk = false
  · rw [if_pos horg] at h; simp at h
  · rw [if_neg horg] at h ⊢
    cases hp : o.prep 0 with
    | error => simp [hp] at h
    | ok =>
      rw [hp] at h
      cases he : enableLoop o.enable o.prep fuel 0 1 0 none with
      | proceeded e p =>
        rw [he] at h
        cases hcv : convergeLoop o.getCDC fuel 0 0 [] with
        | converged entries g =>
          rw [hcv] at h
          cases entries with
          | nil => simp at h
          | cons e0 rest => rfl
        | failedTransport g => simp [hcv] at h
        | failedStatus g => simp [hcv] at h
        | failedEscalated g => simp [hcv] at h
        | outOfFuel g => simp [hcv] at h
      | failedTransport e p => simp [he] at h
      | failedEscalated e p => simp [he] at h
      | failedPrep e p => simp [he] at h
      | outOfFuel e p => simp [he] at h

/-- C8: a create that terminates with a terminal error never writes the
resource identity: every non-success keyspace or CDC create run leaves
the Terraform state — in particular the persisted id — exactly as it
was; the id is written only on the success path, after the mutation is
accepted (and, for CDC, the convergence poll returned a listing). -/
theorem failed_create_leaves_id_unset :
    (∀ (o : KsOracle) (dbID ks : List Char) (fuel g m : Nat) (st : KsState),
      (runKeyspaceCreate o dbID ks fuel g m st).result ≠ .success →
      (runKeyspaceCreate o dbID ks fuel g m st).state = st)
    ∧ (∀ (o : CDCOracle) (fuel : Nat) (dbId ks tbl tn : List Char) (st : CDCState),
      (runCDCCreate o fuel dbId ks tbl tn st).1 ≠ .success →
      (runCDCCreate o fuel dbId ks tbl tn st).2 = st)
    ∧ (∀ (o : KsOracle) (dbID ks : List Char) (fuel g m : Nat) (st : KsState),
      (runKeyspaceCreate o dbID ks fuel g m st).result = .success →
      (runKeyspaceCreate o dbID ks fuel g m st).state.id = some (ksEncodeID dbID ks))
    ∧ (∀ (o : CDCOracle) (fuel : Nat) (dbId ks tbl tn : List Char) (st : CDCState),
      (runCDCCreate o fuel dbId ks tbl tn st).1 = .success →
      (runCDCCreate o fuel dbId ks tbl tn st).2.id = some (cdcEncodeID dbId ks tbl tn)) :=
  ⟨fun o dbID ks fuel g m st h => runKeyspaceCreate_frame o dbID ks fuel g m st h,
   fun o fuel dbId ks tbl tn st h => runCDCCreate_frame o fuel dbId ks tbl tn st h,
   fun o dbID ks fuel g m st h => runKeyspaceCreate_success_id o dbID ks fuel g m st h,
   fun o fuel dbId ks tbl tn st h => runCDCCreate_success_id o fuel dbId ks tbl tn st h⟩

/-- Witness for the C8 theorem: a keyspace create failing on a
terminated parent, and a CDC create failing on credential resolution,
both leave the empty state unchanged. -/
theorem failed_create_leaves_id_unset_witness :
    (runKeyspaceCreate ksOracleTerminated ['d'] ['k'] 3 0 0 ⟨none, none, none⟩).state
      = ⟨none, none, none⟩
    ∧ (runCDCCreate cdcOraclePrepFails 9 ['d'] ['k'] ['t'] ['n'] ⟨none, none, none⟩).2
      = ⟨none, none, none⟩ :=
  ⟨failed_create_leaves_id_unset.1 ksOracleTerminated ['d'] ['k'] 3 0 0
     ⟨none, none, none⟩ (by decide),
   failed_create_leaves_id_unset.2.1 cdcOraclePrepFails 9 ['d'] ['k'] ['t'] ['n']
     ⟨none, none, none⟩ (by decide)⟩


end AstraProvider
